import Mathlib

/-!
Verification development for the 小六壬 (small six-ren) divination service.

This file gives a shallow embedding of the calendar-arithmetic core of
`functions/divination.js` (class `GanZhi`, function `generateHexagram`, the
request validation in `onRequestPost`) and proves/refutes the frozen claims
about it.

Conventions of the embedding:
* JavaScript numbers are embedded as `Int` (all quantities occurring in the
  integer-valued code paths are integers); the astronomical Julian-day
  computations, which JS performs in IEEE doubles, are embedded as exact
  rationals `ℚ`.  The decimal literals in the source are exact decimal
  fractions, which `(… : ℚ)` literals reproduce exactly.  For the dates
  exercised here the double rounding error (≤ 2⁻³⁰ days) is far below the
  0.5-day decision margin of every comparison, so the rational model and the
  IEEE model decide every branch identically.
* JS `%` (truncating remainder) is `Int.tmod`; `Math.floor(a / b)` for a
  positive literal divisor `b` is `Int.fdiv a b`; `Math.round x` is
  `⌊x + 1/2⌋` (JS rounds half-ups toward +∞).
* `Date` values are embedded as a civil instant record (year, month, day,
  hour in the user's civil timezone).  `Date` differences measured in whole
  days correspond to differences of the day number `daysFromCivil` of the
  proleptic Gregorian calendar, and adding `k * 86400000` ms to a date shifts
  its day number by `k` (`addDays`); the civil calendar model is the standard
  era-based conversion.
* The two `while` loops of `lnDate` are embedded as fuel recursion returning
  `Option`; fuel 150 (years) and 13 (months) is proved sufficient for every
  instant in the supported table range (`yearWalk_spec`, `monthWalk_spec`),
  and `lnDate` maps fuel exhaustion to the same `(0, 0, 0)` value the source
  uses as its in-band sentinel (fuel exhaustion is unreachable under the
  range hypotheses of every theorem below).
* Out-of-range JS array reads yield `undefined`; in the bit-table lookups the
  subsequent `&`, `>>` coerce `undefined` to 0, which `List.getD … 0`
  reproduces.  The string concatenation `GAN[G] + ZHI[Z]` yields a two
  character string for in-range indices and the non-string number `NaN` when
  both reads are `undefined`; the type `YearVal` models this value space.
-/

namespace Liuren

/-- 天干 (the ten Heavenly Stems), source constant `GAN`. -/
def GAN : List Char := ['甲', '乙', '丙', '丁', '戊', '己', '庚', '辛', '壬', '癸']

/-- 地支 (the twelve Earthly Branches), source constant `ZHI`. -/
def ZHI : List Char := ['子', '丑', '寅', '卯', '辰', '巳', '午', '未', '申', '酉', '戌', '亥']

/-- Packed month-day bit table `this.gLunarMonthDay`, lunar years 1901–2050. -/
def gLunarMonthDay : List Nat := [
  0x4ae0, 0xa570, 0x5268, 0xd260, 0xd950, 0x6aa8, 0x56a0, 0x9ad0, 0x4ae8, 0x4ae0,
  0xa4d8, 0xa4d0, 0xd250, 0xd548, 0xb550, 0x56a0, 0x96d0, 0x95b0, 0x49b8, 0x49b0,
  0xa4b0, 0xb258, 0x6a50, 0x6d40, 0xada8, 0x2b60, 0x9570, 0x4978, 0x4970, 0x64b0,
  0xd4a0, 0xea50, 0x6d48, 0x5ad0, 0x2b60, 0x9370, 0x92e0, 0xc968, 0xc950, 0xd4a0,
  0xda50, 0xb550, 0x56a0, 0xaad8, 0x25d0, 0x92d0, 0xc958, 0xa950, 0xb4a8, 0x6ca0,
  0xb550, 0x55a8, 0x4da0, 0xa5b0, 0x52b8, 0x52b0, 0xa950, 0xe950, 0x6aa0, 0xad50,
  0xab50, 0x4b60, 0xa570, 0xa570, 0x5260, 0xe930, 0xd950, 0x5aa8, 0x56a0, 0x96d0,
  0x4ae8, 0x4ad0, 0xa4d0, 0xd268, 0xd250, 0xd528, 0xb540, 0xb6a0, 0x96d0, 0x95b0,
  0x49b0, 0xa4b8, 0xa4b0, 0xb258, 0x6a50, 0x6d40, 0xada0, 0xab60, 0x9370, 0x4978,
  0x4970, 0x64b0, 0x6a50, 0xea50, 0x6b28, 0x5ac0, 0xab60, 0x9368, 0x92e0, 0xc960,
  0xd4a8, 0xd4a0, 0xda50, 0x5aa8, 0x56a0, 0xaad8, 0x25d0, 0x92d0, 0xc958, 0xa950,
  0xb4a0, 0xb550, 0xb550, 0x55a8, 0x4ba0, 0xa5b0, 0x52b8, 0x52b0, 0xa930, 0x74a8,
  0x6aa0, 0xad50, 0x4da8, 0x4b60, 0x9570, 0xa4e0, 0xd260, 0xe930, 0xd530, 0x5aa0,
  0x6b50, 0x96d0, 0x4ae8, 0x4ad0, 0xa4d0, 0xd258, 0xd250, 0xd520, 0xdaa0, 0xb5a0,
  0x56d0, 0x4ad8, 0x49b0, 0xa4b8, 0xa4b0, 0xaa50, 0xb528, 0x6d20, 0xada0, 0x55b0]

/-- Leap-month nibble table `this.gLunarMonth`, two lunar years per byte. -/
def gLunarMonth : List Nat := [
  0x00, 0x50, 0x04, 0x00, 0x20, 0x60, 0x05, 0x00, 0x20, 0x70,
  0x05, 0x00, 0x40, 0x02, 0x06, 0x00, 0x50, 0x03, 0x07, 0x00,
  0x60, 0x04, 0x00, 0x20, 0x70, 0x05, 0x00, 0x30, 0x80, 0x06,
  0x00, 0x40, 0x03, 0x07, 0x00, 0x50, 0x04, 0x08, 0x00, 0x60,
  0x04, 0x0a, 0x00, 0x60, 0x05, 0x00, 0x30, 0x80, 0x05, 0x00,
  0x40, 0x02, 0x07, 0x00, 0x50, 0x04, 0x09, 0x00, 0x60, 0x04,
  0x00, 0x20, 0x60, 0x05, 0x00, 0x30, 0xb0, 0x06, 0x00, 0x50,
  0x02, 0x07, 0x00, 0x50, 0x03]

/-- `this.START_YEAR` of the source. -/
def START_YEAR : Int := 1901

/-- Source `getLeapMonth`: nibble lookup of the intercalary month of a lunar
year (0 when the year has none).  `flag & 0x0f` and `flag >> 4` on the byte
values of the table are remainder/division by 16; a negative table index in
JS reads `undefined`, which `&`/`>>` coerce to 0. -/
def getLeapMonth (lunarYear : Int) : Int :=
  let idx : Int := (lunarYear - START_YEAR).fdiv 2
  let flag : Int := if 0 ≤ idx then (gLunarMonth.getD idx.toNat 0 : Int) else 0
  if (lunarYear - START_YEAR).tmod 2 ≠ 0 then flag.tmod 16 else flag.fdiv 16

/-- Bit test `x & (1 << iBit)` for the month-day table words.  The embedding
covers the shift amounts `0 ≤ iBit < 16` that the reachable month values
produce (JS `<<` semantics coincide with `2 ^ iBit` there). -/
def testBit (x : Nat) (iBit : Int) : Bool :=
  decide (0 ≤ iBit) && (x / 2 ^ iBit.toNat) % 2 == 1

/-- Source `lunarMonthDays`: `[high, low]` — the day count of the leap month
attached to `lunarMonth` (0 when `lunarMonth` is not the leap month) and the
day count of ordinary month `lunarMonth`.  Years before `START_YEAR` take the
early-return default `[0, 30]`; years beyond the table read `undefined`,
coerced to word 0 by `&`, hence day count 29. -/
def lunarMonthDays (lunarYear lunarMonth : Int) : Int × Int :=
  if lunarYear < START_YEAR then (0, 30)
  else
    let leap := getLeapMonth lunarYear
    let iBit : Int := 16 - lunarMonth - (if lunarMonth > leap ∧ leap ≠ 0 then 1 else 0)
    let word : Nat := gLunarMonthDay.getD (lunarYear - START_YEAR).toNat 0
    let low : Int := 29 + (if testBit word iBit then 1 else 0)
    let high : Int := if lunarMonth = leap then (if testBit word (iBit - 1) then 30 else 29) else 0
    (high, low)

/-- Total days of months `month, month+1, …, month+n-1` of a lunar year,
counting each month's ordinary days plus its attached leap-month days.
`lunarYearDays` below instantiates this with the source's loop `i = 1..12`. -/
def monthsDays (year month : Int) : Nat → Int
  | 0 => 0
  | n + 1 =>
    let p := lunarMonthDays year month
    p.1 + p.2 + monthsDays year (month + 1) n

/-- Source `lunarYearDays`: sum of `high + low` over months 1..12. -/
def lunarYearDays (year : Int) : Int := monthsDays year 1 12

/-- Total days of lunar years `year, …, year+n-1` (used to bound the year
walk of `lnDate`). -/
def yearsSum (year : Int) : Nat → Int
  | 0 => 0
  | n + 1 => lunarYearDays year + yearsSum (year + 1) n

/-- The year-consuming `while` loop of `lnDate` (`while (deltaDays >= tmp)`),
as fuel recursion: returns the lunar year the remaining offset falls in and
the offset into that year. -/
def yearWalk (year delta : Int) : Nat → Option (Int × Int)
  | 0 => none
  | fuel + 1 =>
    let t := lunarYearDays year
    if delta < t then some (year, delta)
    else yearWalk (year + 1) (delta - t) fuel

/-- The month-consuming `while` loop of `lnDate`, as fuel recursion.  After
consuming an ordinary month equal to the year's leap month, the loop consumes
the leap month's days; an offset landing inside the leap month takes the
source's explicit `return [0, 0, 0]`. -/
def monthWalk (year month delta : Int) : Nat → Option (Int × Int × Int)
  | 0 => none
  | fuel + 1 =>
    let low := (lunarMonthDays year month).2
    if delta < low then some (year, month, delta + 1)
    else
      let d1 := delta - low
      if month = getLeapMonth year then
        let high := (lunarMonthDays year month).1
        if d1 < high then some (0, 0, 0)
        else monthWalk year (month + 1) (d1 - high) fuel
      else monthWalk year (month + 1) d1 fuel

/-- Source `lnDate`, as a function of the day offset `deltaDays` from
Gregorian 1901-01-01 (the value of `this.dateDiff()`).  Offsets below 49 take
the hard-coded month-11/month-12 branches of lunar year 1900; otherwise the
year walk starts at lunar 1901-01-01.  Fuel 150/13 is sufficient for every
offset within the supported table range (`yearWalk_spec`, `monthWalk_spec`);
on the (unreachable there) fuel exhaustion the function returns the same
`(0, 0, 0)` sentinel the source returns for leap-month offsets. -/
def lnDate (delta : Int) : Int × Int × Int :=
  if delta < 49 then
    if delta < 19 then (START_YEAR - 1, 11, 11 + delta)
    else (START_YEAR - 1, 12, delta - 18)
  else
    match yearWalk START_YEAR (delta - 49) 150 with
    | none => (0, 0, 0)
    | some (year, d) =>
      match monthWalk year 1 d 13 with
      | none => (0, 0, 0)
      | some r => r

/-- Source `lnYear`: first component of `lnDate`. -/
def lnYear (delta : Int) : Int := (lnDate delta).1

/-- Source `lnMonth`: second component of `lnDate`. -/
def lnMonth (delta : Int) : Int := (lnDate delta).2.1

/-- Day number of a proleptic Gregorian civil date (days since 1970-01-01,
standard era-based conversion).  Models the day count of a JS `Date`
constructed from local civil fields. -/
def daysFromCivil (y m d : Int) : Int :=
  let y1 := if m ≤ 2 then y - 1 else y
  let era := y1.fdiv 400
  let yoe := y1 - era * 400
  let mp := if m ≤ 2 then m + 9 else m - 3
  let doy := (153 * mp + 2).fdiv 5 + d - 1
  let doe := yoe * 365 + yoe.fdiv 4 - yoe.fdiv 100 + doy
  era * 146097 + doe - 719468

/-- Inverse of `daysFromCivil` (civil date of a day number); models the date
fields of a JS `Date` shifted by a whole number of days. -/
def civilFromDays (z0 : Int) : Int × Int × Int :=
  let z := z0 + 719468
  let era := z.fdiv 146097
  let doe := z - era * 146097
  let yoe := (doe - doe.fdiv 1460 + doe.fdiv 36524 - doe.fdiv 146096).fdiv 365
  let y := yoe + era * 400
  let doy := doe - (365 * yoe + yoe.fdiv 4 - yoe.fdiv 100)
  let mp := (5 * doy + 2).fdiv 153
  let d := doy - (153 * mp + 2).fdiv 5 + 1
  let m := if mp < 10 then mp + 3 else mp - 9
  (if m ≤ 2 then y + 1 else y, m, d)

/-- Source `dateDiff`: whole-day difference between the instant's civil date
and 1901-01-01 (`Math.floor` of the millisecond difference over 86400000;
the time-of-day fields cancel in the floor since both dates are midnight
based and hours are < 24). -/
def dateDiff (y m d : Int) : Int := daysFromCivil y m d - daysFromCivil 1901 1 1

/-- Civil date shifted by `k` days (`new Date(ct.getTime() + k*86400000)`). -/
def addDays (y m d k : Int) : Int × Int × Int := civilFromDays (daysFromCivil y m d + k)

/-- The 24 solar-term names, in the order of the source string `this.jie`
(which the source slices two characters at a time). -/
def jieNames : List String :=
  ["小寒", "大寒", "立春", "雨水", "惊蛰", "春分", "清明", "谷雨",
   "立夏", "小满", "芒种", "夏至", "小暑", "大暑", "立秋", "处暑",
   "白露", "秋分", "寒露", "霜降", "立冬", "小雪", "大雪", "冬至"]

/-- The 12 month-demarcating terms of `this.jieQiOdd`.  The source tests
substring containment in the concatenated string; since no two adjacent
characters spanning a term boundary form a term name, containment of a term
name is exactly membership in this list. -/
def jieQiOddList : List String :=
  ["立春", "惊蛰", "清明", "立夏", "芒种", "小暑",
   "立秋", "白露", "寒露", "立冬", "大雪", "小寒"]

/-- The map `this.jieQiMonth`: term name ↦ (gan-zhi month index, fixed
Earthly Branch of that month), in insertion order. -/
def jieQiMonthTable : List (String × Int × Char) :=
  [("立春", 0, '寅'), ("惊蛰", 1, '卯'), ("清明", 2, '辰'), ("立夏", 3, '巳'),
   ("芒种", 4, '午'), ("小暑", 5, '未'), ("立秋", 6, '申'), ("白露", 7, '酉'),
   ("寒露", 8, '戌'), ("立冬", 9, '亥'), ("大雪", 10, '子'), ("小寒", 11, '丑')]

/-- `this.jieQiMonth[s][0]` (only ever read for names in the table). -/
def jieQiMonthIdx (s : String) : Int :=
  ((jieQiMonthTable.find? (fun e => e.1 = s)).map (fun e => e.2.1)).getD 0

/-- The `monthZhi` selection loop of `gzMonth`: first table entry whose month
index matches, defaulting to 寅. -/
def monthZhiOf (nlMonth : Int) : Char :=
  ((jieQiMonthTable.find? (fun e => e.2.1 = nlMonth)).map (fun e => e.2.2)).getD '寅'

/-- Accumulated solar-term offsets `sStAccInfo` (seconds), exact values of
the source's decimal literals. -/
def sStAccInfo : List ℚ :=
  [0.00, 1272494.40, 2548020.60, 3830143.80, 5120226.60, 6420865.80,
   7732018.80, 9055272.60, 10388958.00, 11733065.40, 13084292.40, 14441592.00,
   15800560.80, 17159347.20, 18513766.20, 19862002.20, 21201005.40, 22529659.80,
   23846845.20, 25152606.00, 26447687.40, 27733451.40, 29011921.20, 30285477.60]

/-- Source constant: Julian day of the 1900 小寒 term. -/
def base1900SlightColdJD : ℚ := 2415025.5868055555

/-- Source `julianDayOfLnJie`: Julian day of solar term `st` of `year`. -/
def julianDayOfLnJie (year : Int) (st : Int) : ℚ :=
  if st < 0 ∨ st > 24 then 0
  else
    let stJd : ℚ := 365.24219878 * ((year : ℚ) - 1900) + (sStAccInfo.getD st.toNat 0) / 86400
    base1900SlightColdJD + stJd

/-- Floor of a rational, computed on the numerator/denominator
representation (equal to `⌊·⌋` by `ratFloor_eq_floor`; the `Int.floor`
projection itself does not kernel-reduce, so the executable definitions use
this form).  Models JS `Math.floor`. -/
def ratFloor (q : ℚ) : Int := q.num.fdiv (q.den : Int)

/-- Source `julianDay` / `rulianDay` (identical formulas): fractional Julian
day of a civil date.  `Math.floor` of the double values coincides with the
rational floor here (see the file comment). -/
def jdOfDate (y m d : Int) : ℚ :=
  let y1 := if m ≤ 2 then y - 1 else y
  let m1 := if m ≤ 2 then m + 12 else m
  let B : Int := 2 - y1.fdiv 100 + y1.fdiv 400
  let dd : ℚ := (d : ℚ) + 0.5000115740
  ((ratFloor ((365.25 : ℚ) * ((y1 : ℚ) + 4716) + 0.01) : Int) : ℚ)
    + ((ratFloor ((30.60001 : ℚ) * ((m1 : ℚ) + 1)) : Int) : ℚ) + dd + (B : ℚ) - 1524.5

/-- The term-scanning loop of `lnJie` / `nlJie`: first `i ∈ [0, 24)` whose
term the Julian day is within half a day of; empty string when none.  The
running index `i` starts at 0 and the fuel at 24, so the loop visits exactly
`i = 0, …, 23` as in the source. -/
def jieScan (jd : ℚ) (year : Int) : Nat → Nat → String
  | _, 0 => ""
  | i, fuel + 1 =>
    let delta := jd - julianDayOfLnJie year i
    if -1/2 ≤ delta ∧ delta ≤ 1/2 then jieNames.getD i "" else jieScan jd year (i + 1) fuel

/-- Source `lnJie` (and `nlJie` applied to an arbitrary date): solar term of
the calendar day, or the empty string. -/
def lnJieOfDate (y m d : Int) : String := jieScan (jdOfDate y m d) y 0 24

/-- A civil instant in the user's local civil timezone (the fields a JS
`Date` exposes that the calculation reads). -/
structure CivilInstant where
  y : Int
  m : Int
  d : Int
  h : Int

/-- `this.dateDiff()` of an instant. -/
def deltaOf (ct : CivilInstant) : Int := dateDiff ct.y ct.m ct.d

/-- Value space of `this.gzYearValue`: a JS string, or the number `NaN` that
`GAN[G] + ZHI[Z]` produces when both index reads are `undefined`. -/
inductive YearVal where
  | str (s : String)
  | nan
deriving DecidableEq, Repr

/-- The single mutable field of a `GanZhi` instance that the pillar methods
share (`this.gzYearValue`). -/
structure GanZhiState where
  gzYearValue : YearVal
deriving DecidableEq, Repr

/-- The constructor's initialisation `this.gzYearValue = ""`. -/
def initState : GanZhiState := ⟨.str ""⟩

/-- The index pair `(year % 10, year % 12)` shared by `gzYear` and the 立春
year-advance branches of `gzMonth` (JS `%` is truncating). -/
def pillarIdx (year : Int) : Int × Int := (year.tmod 10, year.tmod 12)

/-- JS `GAN[i]`: `some` stem character, or `none` (`undefined`) out of range. -/
def ganAt (i : Int) : Option Char :=
  if 0 ≤ i ∧ i < 10 then GAN.getD i.toNat '甲' else none

/-- JS `ZHI[i]`. -/
def zhiAt (i : Int) : Option Char :=
  if 0 ≤ i ∧ i < 12 then ZHI.getD i.toNat '子' else none

/-- JS `GAN[g] + ZHI[z]`: string concatenation, where an `undefined` operand
concatenates as the text `undefined` if the other operand is a string, and
`undefined + undefined` is the number `NaN`. -/
def jsConcatGanZhi : Option Char → Option Char → YearVal
  | some g, some z => .str ⟨[g, z]⟩
  | some g, none => .str (⟨[g]⟩ ++ "undefined")
  | none, some z => .str ("undefined" ++ ⟨[z]⟩)
  | none, none => .nan

/-- The repeated pattern `GAN[year % 10] + ZHI[year % 12]` of `gzYear` and
the 立春 year-advance branches of `gzMonth`. -/
def pillarOfYearNum (year : Int) : YearVal :=
  jsConcatGanZhi (ganAt (pillarIdx year).1) (zhiAt (pillarIdx year).2)

/-- The stem/branch index pair `gzYear` computes before its table lookup. -/
def gzYearIdx (ct : CivilInstant) : Int × Int := pillarIdx (lnYear (deltaOf ct) - 3 - 1)

/-- Source `gzYear`: computes the year pillar from `lnYear() - 3 - 1` and
stores it in `this.gzYearValue`. -/
def gzYear (st : GanZhiState) (ct : CivilInstant) : YearVal × GanZhiState :=
  let v := pillarOfYearNum (lnYear (deltaOf ct) - 3 - 1)
  (v, { st with gzYearValue := v })

/-- JS `indexOf` scan with running index (used for `ganStr.indexOf(c)` and
`GAN.indexOf(c)`). -/
def indexOfAux (c : Char) : List Char → Int → Int
  | [], _ => -1
  | x :: xs, i => if x = c then i else indexOfAux c xs (i + 1)

/-- `ganStr.indexOf(v[0])` for the stored year value `v`: the first character
of a string value is looked up in the stem list; the empty string's `v[0]`
is `undefined` and the `NaN` value's `String(NaN)[0]` is `'N'`, neither of
which occurs among the stems, so both give -1. -/
def ganIndexOfVal : YearVal → Int
  | .nan => -1
  | .str s =>
    match s.data.head? with
    | none => -1
    | some c => indexOfAux c GAN 0

/-- The backward day-by-day scan of `gzMonth` (`for i = -1 …  i >= -40`):
looks for the most recent month-demarcating term; on finding 立春 while the
lunar month is still 12 it recomputes the year pillar from `lnYear() - 3`
without storing it.  Returns `(nlYear, nlMonth)` as left by the loop. -/
def backscan (y m d : Int) (nlMonthVal lnY : Int) (cached : YearVal) :
    Int → Nat → YearVal × Int
  | _, 0 => (cached, 0)
  | i, fuel + 1 =>
    let p := addDays y m d (-i)
    let jq := lnJieOfDate p.1 p.2.1 p.2.2
    if jq ≠ "" ∧ jq ∈ jieQiOddList then
      let idx := jieQiMonthIdx jq
      if 0 < idx then (cached, idx)
      else if idx = 0 ∧ nlMonthVal = 12 then (pillarOfYearNum (lnY - 3), 0)
      else (cached, 0)
    else backscan y m d nlMonthVal lnY cached (i + 1) fuel

/-- The branch structure of `gzMonth` that determines `nlYear` and
`nlMonth`: the term-day branches, the 立春-with-lunar-month-12 year-advance
special case, and the 40-day backward scan. -/
def gzMonthParts (st : GanZhiState) (ct : CivilInstant) : YearVal × Int :=
  let δ := deltaOf ct
  let jq := lnJieOfDate ct.y ct.m ct.d
  let nlMonthVal := lnMonth δ
  if jq ≠ "" ∧ jq ∈ jieQiOddList then
    if jieQiMonthIdx jq = 0 ∧ nlMonthVal = 12 then (pillarOfYearNum (lnYear δ - 3), 0)
    else (st.gzYearValue, jieQiMonthIdx jq)
  else backscan ct.y ct.m ct.d nlMonthVal (lnYear δ) st.gzYearValue 1 40

/-- The month-stem number `M` of `gzMonth`:
`(ganStr.indexOf(nlYear[0]) + 1) * 2 + nlMonth + 1`, reduced mod 10 with a
zero result remapped to 10. -/
def gzMonthM (st : GanZhiState) (ct : CivilInstant) : Int :=
  let parts := gzMonthParts st ct
  let monthNum := (ganIndexOfVal parts.1 + 1) * 2 + parts.2 + 1
  let M := monthNum.tmod 10
  if M = 0 then 10 else M

/-- Source `gzMonth`: the month pillar string `GAN[M - 1] + monthZhi`.  The
method assigns no instance field, so the embedding threads the state through
unchanged; `M - 1` always lies in `[0, 10)` (`gzMonthM_range`), making the
`getD` default unreachable. -/
def gzMonth (st : GanZhiState) (ct : CivilInstant) : String × GanZhiState :=
  (⟨[GAN.getD (gzMonthM st ct - 1).toNat '甲', monthZhiOf (gzMonthParts st ct).2]⟩, st)

/-- The stem/branch indices `(G, Z)` computed by `gzDay` (before the table
lookup).  `Math.floor(a / b)` for the positive divisors here is `Int.fdiv`. -/
def gzDayIdx (y m d : Int) : Int × Int :=
  let C := y.fdiv 100
  let y0 := y.tmod 100
  let y1 := if m = 1 ∨ m = 2 then y0 - 1 else y0
  let M := if m = 1 ∨ m = 2 then m + 12 else m
  let i : Int := if m.tmod 2 = 1 then 0 else 6
  let G := (4 * C + C.fdiv 4 + 5 * y1 + y1.fdiv 4 + (3 * (M + 1)).fdiv 5 + d - 3 - 1).tmod 10
  let Z := (8 * C + C.fdiv 4 + 5 * y1 + y1.fdiv 4 + (3 * (M + 1)).fdiv 5 + d + 7 + i - 1).tmod 12
  (G, Z)

/-- Source `gzDay`: `GAN[G] + ZHI[Z]`. -/
def gzDayVal (ct : CivilInstant) : YearVal :=
  let p := gzDayIdx ct.y ct.m ct.d
  jsConcatGanZhi (ganAt p.1) (zhiAt p.2)

/-- JS `Math.round`: floor of `x + 1/2` (half-values round toward +∞). -/
def jsRound (q : ℚ) : Int := ratFloor (q + 1/2)

/-- The hour-branch index `Z` of `gzHour`:
`Math.round(hours / 2 + 0.1) % 12`. -/
def gzHourZ (h : Int) : Int := (jsRound ((h : ℚ) / 2 + 0.1)).tmod 12

/-- The 0-based hour-stem index of `gzHour`: day-stem number `% 5` with 0
remapped to 5, doubled less one, plus the 1-based hour branch ordinal less
one, `% 10` with 0 remapped to 10, less one. -/
def gzHourStemIdx (ct : CivilInstant) : Int :=
  let Z := gzHourZ ct.h
  let gzDayNum := ganIndexOfVal (gzDayVal ct) + 1
  let gzDayYu0 := gzDayNum.tmod 5
  let gzDayYu := if gzDayYu0 = 0 then 5 else gzDayYu0
  let hourNum := Z + 1
  let gzHourNum0 := (gzDayYu * 2 - 1 + hourNum - 1).tmod 10
  let gzHourNum := if gzHourNum0 = 0 then 10 else gzHourNum0
  gzHourNum - 1

/-- Source `gzHour`: `GAN[gzHourNum - 1] + ZHI[Z]`. -/
def gzHourVal (ct : CivilInstant) : YearVal :=
  jsConcatGanZhi (ganAt (gzHourStemIdx ct)) (zhiAt (gzHourZ ct.h))

/-- Source helper `getYearGanzhi`: fresh instance, `gzYear()`. -/
def getYearGanzhi (ct : CivilInstant) : YearVal := (gzYear initState ct).1

/-- Source helper `getMonthGanzhi`: fresh instance, `gzYear()` first, then
`gzMonth()`. -/
def getMonthGanzhi (ct : CivilInstant) : String :=
  let r := gzYear initState ct
  (gzMonth r.2 ct).1

/-- The state in which `getMonthGanzhi` runs `gzMonth` (after `gzYear`). -/
def monthPathState (ct : CivilInstant) : GanZhiState := (gzYear initState ct).2

/-- The six divination words of `generateHexagram`. -/
def hexWords : List String := ["大安", "留连", "速喜", "赤口", "小吉", "空亡"]

/-- JS `words[i - 1]` for the 1-based index values the hexagram formulas
produce; out-of-range reads are `undefined` (rendered as that text by the
template literal). -/
def hexWordAt (i : Int) : String :=
  if 0 ≤ i ∧ i < 6 then hexWords.getD i.toNat "" else "undefined"

/-- JS `x || 6`: 0 is the only falsy integer. -/
def jsOr6 (x : Int) : Int := if x = 0 then 6 else x

/-- Source `generateHexagram` (numbers embedded as integers, the value space
all accepted callers supply). -/
def generateHexagram (numbers : List Int) : String :=
  let firstIndex := jsOr6 ((numbers.getD 0 0).tmod 6)
  let secondIndex := jsOr6 ((numbers.getD 0 0 + numbers.getD 1 0 - 1).tmod 6)
  let thirdIndex := jsOr6 ((numbers.getD 0 0 + numbers.getD 1 0 + numbers.getD 2 0 - 2).tmod 6)
  hexWordAt (firstIndex - 1) ++ " " ++ hexWordAt (secondIndex - 1) ++ " " ++ hexWordAt (thirdIndex - 1)

/-- The request-body validation of `onRequestPost`:
`!Array.isArray(numbers) || numbers.length !== 3 || !question` rejects the
request with HTTP 400 before `generateHexagram` is reached.  `numbers` is
embedded as `none` when absent or not an array and as the list of its (JSON,
hence finite rational) number entries otherwise; `question` is falsy exactly
when it is the empty string. -/
def requestAccepted (numbers : Option (List ℚ)) (question : String) : Bool :=
  match numbers with
  | none => false
  | some l => l.length == 3 && question ≠ ""

/-- The handler flow around the hexagram call: a rejected request returns
the 400 response, an accepted one reaches `generateHexagram(numbers)` with
the unmodified entries. -/
def onRequestPostNumbers (numbers : Option (List ℚ)) (question : String) :
    Except String (List ℚ) :=
  if requestAccepted numbers question then .ok (numbers.getD [])
  else .error "参数错误：需包含 numbers(3 个) 与 question"

/-- A JSON number list consists of integers when every entry is the image of
an integer (claim-side notion for `InvalidDivinationInput`). -/
def isIntegerList (l : List ℚ) : Prop := ∀ x ∈ l, ∃ k : Int, x = (k : ℚ)

/-- One day past the last day offset covered by the embedded lunar table
(offset 49 reaches lunar 1901-01-01; the table carries lunar years
1901–2050). -/
def supportedEnd : Int := 49 + yearsSum START_YEAR 150

/-! Claim-side definitions.  The following definitions are written from the
wording of the specification (not from the source) and exist only to be
compared against the source-derived definitions above.  They use the
mathematical (Euclidean) `%` and `/` on `Int`, matching the spec's "mod"
and "⌊·⌋". -/

/-- Claim C7's day-pillar stem formula: century `C = ⌊year/100⌋`, reduced
year `y = year mod 100` decremented for Jan/Feb, months 13/14 for Jan/Feb,
`(4C + ⌊C/4⌋ + 5y + ⌊y/4⌋ + ⌊3(M+1)/5⌋ + d − 3 − 1) mod 10`. -/
def specDayStem (y m d : Int) : Int :=
  let C := y / 100
  let yr := if m = 1 ∨ m = 2 then y % 100 - 1 else y % 100
  let M := if m = 1 ∨ m = 2 then m + 12 else m
  (4 * C + C / 4 + 5 * yr + yr / 4 + 3 * (M + 1) / 5 + d - 3 - 1) % 10

/-- Claim C7's day-pillar branch formula, with parity offset `i = 0` for odd
(post-adjustment) months and 6 for even months:
`(8C + ⌊C/4⌋ + 5y + ⌊y/4⌋ + ⌊3(M+1)/5⌋ + d + 7 + i − 1) mod 12`. -/
def specDayBranch (y m d : Int) : Int :=
  let C := y / 100
  let yr := if m = 1 ∨ m = 2 then y % 100 - 1 else y % 100
  let M := if m = 1 ∨ m = 2 then m + 12 else m
  let i : Int := if M % 2 = 1 then 0 else 6
  (8 * C + C / 4 + 5 * yr + yr / 4 + 3 * (M + 1) / 5 + d + 7 + i - 1) % 12

/-- Claim C5's word selection: 1-based indices `n1 mod 6`, `(n1+n2−1) mod 6`,
`(n1+n2+n3−2) mod 6`, each with 0 remapped to 6, looked up in the fixed
vocabulary and joined by single spaces. -/
def c5Words (n1 n2 n3 : Int) : String :=
  let i1 := if n1 % 6 = 0 then 6 else n1 % 6
  let i2 := if (n1 + n2 - 1) % 6 = 0 then 6 else (n1 + n2 - 1) % 6
  let i3 := if (n1 + n2 + n3 - 2) % 6 = 0 then 6 else (n1 + n2 + n3 - 2) % 6
  hexWords.getD (i1 - 1).toNat "" ++ " " ++ hexWords.getD (i2 - 1).toNat ""
    ++ " " ++ hexWords.getD (i3 - 1).toNat ""

/-- Claim C4's hour-branch formula as literally stated:
`⌊hour/2 + 0.1⌋ mod 12`. -/
def c4FloorBranch (h : Int) : Int := (⌊(h : ℚ) / 2 + 0.1⌋ : Int) % 12

/-- The hour-branch formula the code actually implements (C4 amended):
`round(hour/2 + 0.1) mod 12`. -/
def c4RoundBranch (h : Int) : Int := jsRound ((h : ℚ) / 2 + 0.1) % 12

/-- Claim C4's hour-stem derivation from the 1-based day-stem number and the
1-based hour-branch ordinal: `dayStemNum mod 5` remapped 0→5, then
`((r*2 − 1) + hourOrdinal − 1) mod 10` remapped 0→10, converted to 0-based. -/
def c4HourStem (dayStemNum hourOrdinal : Int) : Int :=
  let r0 := dayStemNum % 5
  let r := if r0 = 0 then 5 else r0
  let s0 := (r * 2 - 1 + hourOrdinal - 1) % 10
  let s := if s0 = 0 then 10 else s0
  s - 1

/-- Claim C8: the month pillar the 立春-with-lunar-month-12 branch must
produce — the code's month composition applied to the year pillar advanced
by one increment (year number `lnYear − 3` instead of the cached
`lnYear − 4`), with month index 0 and fixed branch 寅. -/
def monthPillarFromYear (yearNum : Int) : String :=
  let G := yearNum % 10
  let M0 := ((G + 1) * 2 + 1) % 10
  let M := if M0 = 0 then 10 else M0
  ⟨[GAN.getD (M - 1).toNat '甲', '寅']⟩

/-! Helper lemmas. -/

lemma ratFloor_eq_floor (q : ℚ) : ratFloor q = ⌊q⌋ := by
  rw [Rat.floor_def, ratFloor, Int.fdiv_eq_ediv _ (by positivity)]

lemma jieScan_step (jd : ℚ) (year : Int) (i fuel : Nat) :
    jieScan jd year i (fuel + 1) =
      if -1/2 ≤ jd - julianDayOfLnJie year i ∧ jd - julianDayOfLnJie year i ≤ 1/2
      then jieNames.getD i "" else jieScan jd year (i + 1) fuel := rfl

lemma rf1 : ratFloor (120842963/50 : ℚ) = 2416859 := by
  rw [ratFloor_eq_floor, Int.floor_eq_iff]
  norm_num

lemma rf2 : ratFloor (9180003/20000 : ℚ) = 459 := by
  rw [ratFloor_eq_floor, Int.floor_eq_iff]
  norm_num

lemma jd_1902_2_5 : jdOfDate 1902 2 5 = 2415786 + 11574 / (10:ℚ)^9 := by
  rw [jdOfDate]
  norm_num
  rw [rf1, rf2, show Int.fdiv 1901 100 = 19 from by decide,
    show Int.fdiv 1901 400 = 4 from by decide]
  norm_num

lemma jdT1902 (i : Nat) (hi : i < 24) :
    julianDayOfLnJie 1902 (i : Int) =
      base1900SlightColdJD
        + (365.24219878 * (((1902:Int):ℚ) - 1900) + (sStAccInfo.getD i 0) / 86400) := by
  rw [julianDayOfLnJie, if_neg (by omega), Int.toNat_natCast]

/-- 1902-02-05 is a 立春 day in the source's solar-term model. -/
lemma lichun_1902 : lnJieOfDate 1902 2 5 = "立春" := by
  rw [lnJieOfDate]
  rw [show (24:Nat) = 23 + 1 from rfl, jieScan_step]
  rw [if_neg ?h0]
  case h0 =>
    rw [jdT1902 0 (by norm_num), show sStAccInfo.getD 0 0 = 0.00 from rfl,
      jd_1902_2_5, base1900SlightColdJD]
    norm_num
  rw [show (23:Nat) = 22 + 1 from rfl, jieScan_step]
  rw [if_neg ?h1]
  case h1 =>
    rw [jdT1902 (0+1) (by norm_num), show sStAccInfo.getD (0+1) 0 = 1272494.40 from rfl,
      jd_1902_2_5, base1900SlightColdJD]
    norm_num
  rw [show (22:Nat) = 21 + 1 from rfl, jieScan_step]
  rw [if_pos ?h2]
  case h2 =>
    rw [jdT1902 (0+1+1) (by norm_num), show sStAccInfo.getD (0+1+1) 0 = 2548020.60 from rfl,
      jd_1902_2_5, base1900SlightColdJD]
    norm_num
  rfl

lemma lunarMonthDays_high_eq_zero {year month : Int} (h : month ≠ getLeapMonth year) :
    (lunarMonthDays year month).1 = 0 := by
  rw [lunarMonthDays]
  split
  · rfl
  · simp only [if_neg h]

lemma lunarMonthDays_low_ge (year month : Int) : 29 ≤ (lunarMonthDays year month).2 := by
  rw [lunarMonthDays]
  split
  · norm_num
  · dsimp only
    split_ifs <;> norm_num

lemma lunarMonthDays_high_nonneg (year month : Int) : 0 ≤ (lunarMonthDays year month).1 := by
  rw [lunarMonthDays]
  split
  · norm_num
  · dsimp only
    split_ifs <;> norm_num

/-- The month loop of `lnDate`, run with enough fuel on an offset smaller
than the remaining months' total days, ends inside one of those months with
a day ≥ 1, or takes the leap-month sentinel return. -/
lemma monthWalk_spec : ∀ (n : Nat) (year month delta : Int) (fuel : Nat),
    0 ≤ delta → delta < monthsDays year month n → n ≤ fuel →
    monthWalk year month delta fuel = some (0, 0, 0) ∨
      ∃ m' d', monthWalk year month delta fuel = some (year, m', d') ∧
        month ≤ m' ∧ m' < month + (n : Int) ∧ 1 ≤ d' := by
  intro n
  induction n with
  | zero =>
    intro year month delta fuel h0 h1 _
    rw [monthsDays] at h1
    omega
  | succ n ih =>
    intro year month delta fuel h0 h1 hf
    obtain ⟨f, rfl⟩ : ∃ f, fuel = f + 1 := ⟨fuel - 1, by omega⟩
    rw [monthWalk]
    have hlow := lunarMonthDays_low_ge year month
    have hhnn := lunarMonthDays_high_nonneg year month
    rw [monthsDays] at h1
    by_cases hlt : delta < (lunarMonthDays year month).2
    · right
      refine ⟨month, delta + 1, ?_, le_refl _, by omega, by omega⟩
      simp only [if_pos hlt]
    · simp only [if_neg hlt]
      by_cases hleap : month = getLeapMonth year
      · simp only [if_pos hleap]
        by_cases hs : delta - (lunarMonthDays year month).2 < (lunarMonthDays year month).1
        · left
          simp only [if_pos hs]
        · simp only [if_neg hs]
          rcases ih year (month + 1)
              (delta - (lunarMonthDays year month).2 - (lunarMonthDays year month).1) f
              (by omega) (by omega) (by omega) with h | ⟨m', d', he, hm1, hm2, hd⟩
          · left
            exact h
          · right
            exact ⟨m', d', he, by omega, by push_cast; push_cast at hm2; omega, hd⟩
      · simp only [if_neg hleap]
        have hz := lunarMonthDays_high_eq_zero hleap
        rcases ih year (month + 1) (delta - (lunarMonthDays year month).2) f
            (by omega) (by omega) (by omega) with h | ⟨m', d', he, hm1, hm2, hd⟩
        · left
          exact h
        · right
          exact ⟨m', d', he, by omega, by push_cast; push_cast at hm2; omega, hd⟩

/-- The year loop of `lnDate`, run with enough fuel on an offset smaller
than the total days of the next `n` lunar years, ends in one of those years
with a day offset smaller than that year's total. -/
lemma yearWalk_spec : ∀ (n : Nat) (year delta : Int) (fuel : Nat),
    0 ≤ delta → delta < yearsSum year n → n ≤ fuel →
    ∃ y' d', yearWalk year delta fuel = some (y', d') ∧ year ≤ y' ∧ y' < year + (n : Int) ∧
      0 ≤ d' ∧ d' < lunarYearDays y' := by
  intro n
  induction n with
  | zero =>
    intro year delta fuel h0 h1 _
    rw [yearsSum] at h1
    omega
  | succ n ih =>
    intro year delta fuel h0 h1 hf
    obtain ⟨f, rfl⟩ : ∃ f, fuel = f + 1 := ⟨fuel - 1, by omega⟩
    rw [yearWalk]
    rw [yearsSum] at h1
    by_cases hlt : delta < lunarYearDays year
    · exact ⟨year, delta, by simp only [if_pos hlt], le_refl _, by omega, h0, hlt⟩
    · simp only [if_neg hlt]
      rcases ih (year + 1) (delta - lunarYearDays year) f (by omega) (by omega) (by omega)
        with ⟨y', d', he, hy1, hy2, hd0, hd1⟩
      exact ⟨y', d', he, by omega, by push_cast; push_cast at hy2; omega, hd0, hd1⟩

lemma yearWalk_some_ge : ∀ (fuel : Nat) (year delta y' d' : Int),
    yearWalk year delta fuel = some (y', d') → year ≤ y' := by
  intro fuel
  induction fuel with
  | zero => intro year delta y' d' h; exact absurd h (by rw [yearWalk]; simp)
  | succ f ih =>
    intro year delta y' d' h
    rw [yearWalk] at h
    by_cases hlt : delta < lunarYearDays year
    · simp only [if_pos hlt, Option.some.injEq, Prod.mk.injEq] at h
      omega
    · simp only [if_neg hlt] at h
      have := ih (year + 1) (delta - lunarYearDays year) y' d' h
      omega

lemma monthWalk_some_shape : ∀ (fuel : Nat) (year month delta y' m' d' : Int),
    monthWalk year month delta fuel = some (y', m', d') →
    (y', m', d') = (0, 0, 0) ∨ (y' = year ∧ month ≤ m') := by
  intro fuel
  induction fuel with
  | zero => intro year month delta y' m' d' h; exact absurd h (by rw [monthWalk]; simp)
  | succ f ih =>
    intro year month delta y' m' d' h
    rw [monthWalk] at h
    by_cases hlt : delta < (lunarMonthDays year month).2
    · simp only [if_pos hlt, Option.some.injEq, Prod.mk.injEq] at h
      right
      omega
    · simp only [if_neg hlt] at h
      by_cases hleap : month = getLeapMonth year
      · simp only [if_pos hleap] at h
        by_cases hs : delta - (lunarMonthDays year month).2 < (lunarMonthDays year month).1
        · simp only [if_pos hs, Option.some.injEq] at h
          left
          exact h.symm
        · simp only [if_neg hs] at h
          rcases ih year (month + 1) _ y' m' d' h with h' | ⟨h1, h2⟩
          · left; exact h'
          · right; exact ⟨h1, by omega⟩
      · simp only [if_neg hleap] at h
        rcases ih year (month + 1) _ y' m' d' h with h' | ⟨h1, h2⟩
        · left; exact h'
        · right; exact ⟨h1, by omega⟩

lemma supportedEnd_eq : supportedEnd = 49 + yearsSum START_YEAR 150 := rfl

/-- Every supported-range offset yields either the leap-month sentinel or a
lunar date with year in the table range, month in 1..12 and day ≥ 1. -/
lemma lnDate_cases {δ : Int} (h0 : 0 ≤ δ) (h1 : δ < supportedEnd) :
    lnDate δ = (0, 0, 0) ∨
      ∃ Y M D, lnDate δ = (Y, M, D) ∧ 1900 ≤ Y ∧ Y ≤ 2050 ∧
        1 ≤ M ∧ M ≤ 12 ∧ 1 ≤ D := by
  rw [lnDate]
  by_cases h49 : δ < 49
  · rw [if_pos h49]
    by_cases h19 : δ < 19
    · rw [if_pos h19]
      right
      exact ⟨1900, 11, 11 + δ, by norm_num [START_YEAR], by norm_num, by norm_num,
        by norm_num, by norm_num, by omega⟩
    · rw [if_neg h19]
      right
      exact ⟨1900, 12, δ - 18, by norm_num [START_YEAR], by norm_num, by norm_num,
        by norm_num, by norm_num, by omega⟩
  · rw [if_neg h49]
    rw [supportedEnd_eq] at h1
    rcases yearWalk_spec 150 START_YEAR (δ - 49) 150 (by omega) (by omega) (le_refl _)
      with ⟨y', d', hw, hy1, hy2, hd0, hd1⟩
    rw [hw]
    dsimp only
    rcases monthWalk_spec 12 y' 1 d' 13 hd0 hd1 (by norm_num)
      with hm | ⟨m', dd', hm, hm1, hm2, hd⟩
    · rw [hm]
      left
      rfl
    · rw [hm]
      right
      rw [START_YEAR] at hy1 hy2
      exact ⟨y', m', dd', rfl, by omega, by omega, by omega, by omega, hd⟩

/-- A `lnDate` result whose month is nonzero carries a year ≥ 1900 (needed
to see that the 立春 year-advance works on a nonnegative year number). -/
lemma lnDate_year_ge {δ Y M D : Int} (h : lnDate δ = (Y, M, D)) (hM : M ≠ 0) : 1900 ≤ Y := by
  rw [lnDate] at h
  by_cases h49 : δ < 49
  · rw [if_pos h49] at h
    by_cases h19 : δ < 19
    · rw [if_pos h19] at h
      rw [START_YEAR] at h
      injection h with h1 h2
      omega
    · rw [if_neg h19] at h
      rw [START_YEAR] at h
      injection h with h1 h2
      omega
  · rw [if_neg h49] at h
    rcases hw : yearWalk START_YEAR (δ - 49) 150 with _ | ⟨y', d'⟩
    · rw [hw] at h
      dsimp only at h
      injection h with h1 h2
      injection h2 with h2 h3
      omega
    · rw [hw] at h
      dsimp only at h
      rcases hm : monthWalk y' 1 d' 13 with _ | r
      · rw [hm] at h
        injection h with h1 h2
        injection h2 with h2 h3
        omega
      · rw [hm] at h
        subst h
        rcases monthWalk_some_shape 13 y' 1 d' Y M D hm with h' | ⟨h1, h2⟩
        · injection h' with e1 e2
          injection e2 with e2 e3
          omega
        · have := yearWalk_some_ge 150 START_YEAR (δ - 49) y' d' hw
          rw [START_YEAR] at this
          omega

lemma ganAt_some {i : Int} (h0 : 0 ≤ i) (h1 : i < 10) :
    ganAt i = some (GAN.getD i.toNat '甲') := by
  rw [ganAt, if_pos ⟨h0, h1⟩]

lemma zhiAt_some {i : Int} (h0 : 0 ≤ i) (h1 : i < 12) :
    zhiAt i = some (ZHI.getD i.toNat '子') := by
  rw [zhiAt, if_pos ⟨h0, h1⟩]

lemma pillarOfYearNum_str {n : Int} (hn : 0 ≤ n) :
    pillarOfYearNum n =
      .str ⟨[GAN.getD (n.tmod 10).toNat '甲', ZHI.getD (n.tmod 12).toNat '子']⟩ := by
  rw [pillarOfYearNum, pillarIdx]
  rw [ganAt_some (Int.tmod_nonneg _ hn) (Int.tmod_lt_of_pos n (by norm_num)),
    zhiAt_some (Int.tmod_nonneg _ hn) (Int.tmod_lt_of_pos n (by norm_num))]
  rfl

lemma indexOfAux_gan_fin : ∀ k : Fin 10, indexOfAux (GAN.getD k.val '甲') GAN 0 = k.val := by
  decide

lemma ganIndexOfVal_str_pair (g z : Char) :
    ganIndexOfVal (.str ⟨[g, z]⟩) = indexOfAux g GAN 0 := rfl

lemma ganIndexOfVal_pillar {n : Int} (hn : 0 ≤ n) :
    ganIndexOfVal (pillarOfYearNum n) = n.tmod 10 := by
  rw [pillarOfYearNum_str hn, ganIndexOfVal_str_pair]
  have h0 : 0 ≤ n.tmod 10 := Int.tmod_nonneg _ hn
  have h1 : n.tmod 10 < 10 := Int.tmod_lt_of_pos n (by norm_num)
  have hk : (n.tmod 10).toNat < 10 := by omega
  have := indexOfAux_gan_fin ⟨(n.tmod 10).toNat, hk⟩
  simp only at this
  rw [this]
  omega

lemma indexOfAux_range (c : Char) : ∀ (l : List Char) (i : Int),
    indexOfAux c l i = -1 ∨ (i ≤ indexOfAux c l i ∧ indexOfAux c l i < i + l.length) := by
  intro l
  induction l with
  | nil => intro i; left; rfl
  | cons x xs ih =>
    intro i
    rw [indexOfAux]
    by_cases hx : x = c
    · right
      rw [if_pos hx]
      simp only [List.length_cons]
      push_cast
      omega
    · rw [if_neg hx]
      rcases ih (i + 1) with h | ⟨h1, h2⟩
      · left; exact h
      · right
        simp only [List.length_cons]
        constructor
        · omega
        · push_cast
          push_cast at h2
          omega

lemma ganIndexOfVal_range (v : YearVal) :
    -1 ≤ ganIndexOfVal v ∧ ganIndexOfVal v ≤ 9 := by
  cases v with
  | nan => norm_num [ganIndexOfVal]
  | str s =>
    rw [ganIndexOfVal]
    rcases hh : s.data.head? with _ | c
    · norm_num
    · dsimp only
      rcases indexOfAux_range c GAN 0 with h | ⟨h1, h2⟩
      · rw [h]; norm_num
      · rw [show (GAN.length : Int) = 10 from rfl] at h2
        omega

lemma jieQiMonthIdx_range (s : String) : 0 ≤ jieQiMonthIdx s ∧ jieQiMonthIdx s ≤ 11 := by
  rcases hf : jieQiMonthTable.find? (fun e => e.1 = s) with _ | e
  · rw [jieQiMonthIdx, hf]
    norm_num
  · rw [jieQiMonthIdx, hf]
    simp only [Option.map_some', Option.getD_some]
    have hm := List.mem_of_find?_eq_some hf
    have hall : ∀ x ∈ jieQiMonthTable, 0 ≤ x.2.1 ∧ x.2.1 ≤ 11 := by decide
    exact hall e hm

lemma monthZhiOf_mem (n : Int) : monthZhiOf n ∈ ZHI := by
  rcases hf : jieQiMonthTable.find? (fun e => e.2.1 = n) with _ | e
  · rw [monthZhiOf, hf]
    decide
  · rw [monthZhiOf, hf]
    simp only [Option.map_some', Option.getD_some]
    have hm := List.mem_of_find?_eq_some hf
    have hall : ∀ x ∈ jieQiMonthTable, x.2.2 ∈ ZHI := by decide
    exact hall e hm

lemma backscan_parts (ynum mm dd nlMonthVal lnY : Int) (cached : YearVal) :
    ∀ (fuel : Nat) (i : Int),
      ((backscan ynum mm dd nlMonthVal lnY cached i fuel).1 = cached ∨
        (backscan ynum mm dd nlMonthVal lnY cached i fuel).1 = pillarOfYearNum (lnY - 3)) ∧
      0 ≤ (backscan ynum mm dd nlMonthVal lnY cached i fuel).2 ∧
      (backscan ynum mm dd nlMonthVal lnY cached i fuel).2 ≤ 11 := by
  intro fuel
  induction fuel with
  | zero => intro i; rw [backscan]; exact ⟨Or.inl rfl, by norm_num⟩
  | succ f ih =>
    intro i
    rw [backscan]
    dsimp only
    split
    · split
      · exact ⟨Or.inl rfl, jieQiMonthIdx_range _⟩
      · split
        · exact ⟨Or.inr rfl, by norm_num⟩
        · exact ⟨Or.inl rfl, by norm_num⟩
    · exact ih (i + 1)

lemma gzMonthParts_shape (st : GanZhiState) (ct : CivilInstant) :
    ((gzMonthParts st ct).1 = st.gzYearValue ∨
      (gzMonthParts st ct).1 = pillarOfYearNum (lnYear (deltaOf ct) - 3)) ∧
    0 ≤ (gzMonthParts st ct).2 ∧ (gzMonthParts st ct).2 ≤ 11 := by
  rw [gzMonthParts]
  split
  · split
    · exact ⟨Or.inr rfl, by norm_num⟩
    · exact ⟨Or.inl rfl, jieQiMonthIdx_range _⟩
  · exact backscan_parts _ _ _ _ _ _ 40 1

lemma gzMonthM_range (st : GanZhiState) (ct : CivilInstant) :
    1 ≤ gzMonthM st ct ∧ gzMonthM st ct ≤ 10 := by
  have h1 := gzMonthParts_shape st ct
  have h2 := ganIndexOfVal_range (gzMonthParts st ct).1
  rw [gzMonthM]
  have hnn : 0 ≤ (ganIndexOfVal (gzMonthParts st ct).1 + 1) * 2 + (gzMonthParts st ct).2 + 1 := by
    omega
  rw [Int.tmod_eq_emod hnn (by norm_num)]
  split <;> omega

lemma fdiv4 (a : Int) : a.fdiv 4 = a / 4 := Int.fdiv_eq_ediv a (by norm_num)

lemma fdiv5 (a : Int) : a.fdiv 5 = a / 5 := Int.fdiv_eq_ediv a (by norm_num)

lemma fdiv100 (a : Int) : a.fdiv 100 = a / 100 := Int.fdiv_eq_ediv a (by norm_num)

lemma gzDayIdx_range {y m d : Int} (hy : 1 ≤ y) (hm1 : 1 ≤ m) (hm2 : m ≤ 12) (hd : 1 ≤ d) :
    0 ≤ (gzDayIdx y m d).1 ∧ (gzDayIdx y m d).1 < 10 ∧
    0 ≤ (gzDayIdx y m d).2 ∧ (gzDayIdx y m d).2 < 12 := by
  simp only [gzDayIdx]
  rw [Int.tmod_eq_emod (show (0:Int) ≤ y by omega) (by norm_num),
    Int.tmod_eq_emod (show (0:Int) ≤ m by omega) (by norm_num)]
  simp only [fdiv4, fdiv5, fdiv100]
  refine ⟨Int.tmod_nonneg _ ?_, Int.tmod_lt_of_pos _ (by norm_num),
    Int.tmod_nonneg _ ?_, Int.tmod_lt_of_pos _ (by norm_num)⟩ <;>
  · split_ifs <;> omega

lemma gzDayIdx_eq_spec {y m d : Int} (hy : 1 ≤ y) (hm1 : 1 ≤ m) (hm2 : m ≤ 12) (hd : 1 ≤ d) :
    gzDayIdx y m d = (specDayStem y m d, specDayBranch y m d) := by
  simp only [gzDayIdx, specDayStem, specDayBranch]
  rw [Int.tmod_eq_emod (show (0:Int) ≤ y by omega) (by norm_num),
    Int.tmod_eq_emod (show (0:Int) ≤ m by omega) (by norm_num)]
  simp only [fdiv4, fdiv5, fdiv100, Prod.mk.injEq]
  constructor
  · split_ifs <;> exact Int.tmod_eq_emod (by omega) (by norm_num)
  · split_ifs <;>
      first
        | exact Int.tmod_eq_emod (by omega) (by norm_num)
        | (exfalso; omega)

lemma indexOfAux_gan_getD {i : Int} (h0 : 0 ≤ i) (h1 : i < 10) :
    indexOfAux (GAN.getD i.toNat '甲') GAN 0 = i := by
  have hk : i.toNat < 10 := by omega
  have h := indexOfAux_gan_fin ⟨i.toNat, hk⟩
  simp only at h
  rw [h]
  omega

lemma gzDayVal_str {ct : CivilInstant} (hy : 1 ≤ ct.y) (hm1 : 1 ≤ ct.m) (hm2 : ct.m ≤ 12)
    (hd : 1 ≤ ct.d) :
    gzDayVal ct = .str ⟨[GAN.getD (gzDayIdx ct.y ct.m ct.d).1.toNat '甲',
      ZHI.getD (gzDayIdx ct.y ct.m ct.d).2.toNat '子']⟩ := by
  obtain ⟨h1, h2, h3, h4⟩ := gzDayIdx_range hy hm1 hm2 hd
  rw [gzDayVal, ganAt_some h1 h2, zhiAt_some h3 h4]
  rfl

lemma ganIndexOfVal_gzDayVal {ct : CivilInstant} (hy : 1 ≤ ct.y) (hm1 : 1 ≤ ct.m)
    (hm2 : ct.m ≤ 12) (hd : 1 ≤ ct.d) :
    ganIndexOfVal (gzDayVal ct) = (gzDayIdx ct.y ct.m ct.d).1 := by
  obtain ⟨h1, h2, _, _⟩ := gzDayIdx_range hy hm1 hm2 hd
  rw [gzDayVal_str hy hm1 hm2 hd, ganIndexOfVal_str_pair, indexOfAux_gan_getD h1 h2]

lemma jsRound_nonneg {q : ℚ} (h : 0 ≤ q) : 0 ≤ jsRound q := by
  rw [jsRound, ratFloor_eq_floor]
  exact Int.floor_nonneg.mpr (by linarith)

lemma gzHourZ_range {h : Int} (hh : 0 ≤ h) : 0 ≤ gzHourZ h ∧ gzHourZ h < 12 := by
  rw [gzHourZ]
  have hq : (0:ℚ) ≤ (h:ℚ)/2 + 0.1 := by
    have : (0:ℚ) ≤ (h:ℚ) := by exact_mod_cast hh
    have h01 : (0:ℚ) ≤ 0.1 := by norm_num
    linarith
  have hr := jsRound_nonneg hq
  exact ⟨Int.tmod_nonneg _ hr, Int.tmod_lt_of_pos _ (by norm_num)⟩

lemma gzHourStemIdx_range (ct : CivilInstant) (hh : 0 ≤ ct.h) :
    0 ≤ gzHourStemIdx ct ∧ gzHourStemIdx ct < 10 := by
  simp only [gzHourStemIdx]
  have hidx := ganIndexOfVal_range (gzDayVal ct)
  have hZ := gzHourZ_range hh
  have h5 : (ganIndexOfVal (gzDayVal ct) + 1).tmod 5 = (ganIndexOfVal (gzDayVal ct) + 1) % 5 :=
    Int.tmod_eq_emod (by omega) (by norm_num)
  rw [h5]
  split_ifs with hYu hTen hTen
  · have := Int.tmod_nonneg 10 (show (0:Int) ≤ 5 * 2 - 1 + (gzHourZ ct.h + 1) - 1 by omega)
    have h2 := Int.tmod_lt_of_pos (5 * 2 - 1 + (gzHourZ ct.h + 1) - 1) (show (0:Int) < 10 by norm_num)
    omega
  · have := Int.tmod_nonneg 10 (show (0:Int) ≤ 5 * 2 - 1 + (gzHourZ ct.h + 1) - 1 by omega)
    have h2 := Int.tmod_lt_of_pos (5 * 2 - 1 + (gzHourZ ct.h + 1) - 1) (show (0:Int) < 10 by norm_num)
    omega
  · have := Int.tmod_nonneg 10
      (show (0:Int) ≤ (ganIndexOfVal (gzDayVal ct) + 1) % 5 * 2 - 1 + (gzHourZ ct.h + 1) - 1 by
        have := Int.emod_nonneg (ganIndexOfVal (gzDayVal ct) + 1) (show (10:Int) ≠ 0 by norm_num)
        omega)
    omega
  · have hnn : (0:Int) ≤ (ganIndexOfVal (gzDayVal ct) + 1) % 5 * 2 - 1 + (gzHourZ ct.h + 1) - 1 := by
      have := Int.emod_nonneg (ganIndexOfVal (gzDayVal ct) + 1) (show (5:Int) ≠ 0 by norm_num)
      omega
    have := Int.tmod_nonneg 10 hnn
    have h2 := Int.tmod_lt_of_pos ((ganIndexOfVal (gzDayVal ct) + 1) % 5 * 2 - 1 + (gzHourZ ct.h + 1) - 1)
      (show (0:Int) < 10 by norm_num)
    omega

lemma jsOr6_bounds {r : Int} (h0 : 0 ≤ r) (h1 : r < 6) : 1 ≤ jsOr6 r ∧ jsOr6 r ≤ 6 := by
  rw [jsOr6]
  split_ifs <;> omega

lemma hexWordAt_in {i : Int} (h0 : 1 ≤ i) (h1 : i ≤ 6) :
    hexWordAt (i - 1) = hexWords.getD (i - 1).toNat "" := by
  rw [hexWordAt, if_pos (by omega)]

lemma generateHexagram_eq_c5 {n1 n2 n3 : Int} (h1 : 1 ≤ n1) (h2 : 1 ≤ n2) (h3 : 1 ≤ n3) :
    generateHexagram [n1, n2, n3] = c5Words n1 n2 n3 := by
  rw [generateHexagram,
    show ([n1, n2, n3].getD 0 0) = n1 from rfl,
    show ([n1, n2, n3].getD 1 0) = n2 from rfl,
    show ([n1, n2, n3].getD 2 0) = n3 from rfl,
    Int.tmod_eq_emod (show (0:Int) ≤ n1 by omega) (by norm_num),
    Int.tmod_eq_emod (show (0:Int) ≤ n1 + n2 - 1 by omega) (by norm_num),
    Int.tmod_eq_emod (show (0:Int) ≤ n1 + n2 + n3 - 2 by omega) (by norm_num)]
  have b1 := jsOr6_bounds (Int.emod_nonneg n1 (by norm_num))
    (Int.emod_lt_of_pos n1 (show (0:Int) < 6 by norm_num))
  have b2 := jsOr6_bounds (Int.emod_nonneg (n1 + n2 - 1) (by norm_num))
    (Int.emod_lt_of_pos (n1 + n2 - 1) (show (0:Int) < 6 by norm_num))
  have b3 := jsOr6_bounds (Int.emod_nonneg (n1 + n2 + n3 - 2) (by norm_num))
    (Int.emod_lt_of_pos (n1 + n2 + n3 - 2) (show (0:Int) < 6 by norm_num))
  rw [hexWordAt_in b1.1 b1.2, hexWordAt_in b2.1 b2.2, hexWordAt_in b3.1 b3.2, c5Words]
  simp only [jsOr6]

lemma c4RoundBranch_eq_gzHourZ {h : Int} (hh : 0 ≤ h) : gzHourZ h = c4RoundBranch h := by
  rw [gzHourZ, c4RoundBranch]
  have hq : (0:ℚ) ≤ (h:ℚ)/2 + 0.1 := by
    have : (0:ℚ) ≤ (h:ℚ) := by exact_mod_cast hh
    have h01 : (0:ℚ) ≤ 0.1 := by norm_num
    linarith
  exact Int.tmod_eq_emod (jsRound_nonneg hq) (by norm_num)

lemma gzHourStemIdx_eq_c4 {ct : CivilInstant} (hy : 1 ≤ ct.y) (hm1 : 1 ≤ ct.m)
    (hm2 : ct.m ≤ 12) (hd : 1 ≤ ct.d) (hh : 0 ≤ ct.h) :
    gzHourStemIdx ct = c4HourStem ((gzDayIdx ct.y ct.m ct.d).1 + 1) (c4RoundBranch ct.h + 1) := by
  obtain ⟨hG0, hG1, _, _⟩ := gzDayIdx_range hy hm1 hm2 hd
  have hZ := gzHourZ_range hh
  simp only [gzHourStemIdx, c4HourStem]
  rw [ganIndexOfVal_gzDayVal hy hm1 hm2 hd, ← c4RoundBranch_eq_gzHourZ hh]
  rw [Int.tmod_eq_emod (show (0:Int) ≤ (gzDayIdx ct.y ct.m ct.d).1 + 1 by omega) (by norm_num)]
  have hr := Int.emod_nonneg ((gzDayIdx ct.y ct.m ct.d).1 + 1) (show (5:Int) ≠ 0 by norm_num)
  have hr2 := Int.emod_lt_of_pos ((gzDayIdx ct.y ct.m ct.d).1 + 1) (show (0:Int) < 5 by norm_num)
  by_cases hYu : ((gzDayIdx ct.y ct.m ct.d).1 + 1) % 5 = 0
  · simp only [if_pos hYu]
    rw [Int.tmod_eq_emod
      (show (0:Int) ≤ 5 * 2 - 1 + (gzHourZ ct.h + 1) - 1 by omega) (by norm_num)]
  · simp only [if_neg hYu]
    rw [Int.tmod_eq_emod
      (show (0:Int) ≤ ((gzDayIdx ct.y ct.m ct.d).1 + 1) % 5 * 2 - 1 + (gzHourZ ct.h + 1) - 1
        by omega) (by norm_num)]

lemma gzYear_fst (st : GanZhiState) (ct : CivilInstant) :
    (gzYear st ct).1 = pillarOfYearNum (lnYear (deltaOf ct) - 4) := by
  show pillarOfYearNum (lnYear (deltaOf ct) - 3 - 1) = _
  congr 1
  omega

lemma gzYear_snd (st : GanZhiState) (ct : CivilInstant) :
    (gzYear st ct).2.gzYearValue = (gzYear st ct).1 := rfl

lemma monthPathState_val (ct : CivilInstant) :
    (monthPathState ct).gzYearValue = (gzYear initState ct).1 := rfl

lemma gan_getD_mem : ∀ k : Fin 10, GAN.getD k.val '甲' ∈ GAN := by decide

lemma zhi_getD_mem : ∀ k : Fin 12, ZHI.getD k.val '子' ∈ ZHI := by decide

lemma lnDate_eta (δ : Int) : lnDate δ = (lnYear δ, lnMonth δ, (lnDate δ).2.2) := rfl

lemma monthZhiOf_zero : monthZhiOf 0 = '寅' := by decide

lemma gzMonth_lichun (st : GanZhiState) (ct : CivilInstant)
    (hj : lnJieOfDate ct.y ct.m ct.d = "立春") (hm12 : lnMonth (deltaOf ct) = 12) :
    gzMonth st ct = (monthPillarFromYear (lnYear (deltaOf ct) - 3), st) := by
  have hY : 1900 ≤ lnYear (deltaOf ct) := by
    apply lnDate_year_ge (lnDate_eta (deltaOf ct))
    rw [hm12]
    norm_num
  have hparts : gzMonthParts st ct = (pillarOfYearNum (lnYear (deltaOf ct) - 3), 0) := by
    rw [gzMonthParts, hj]
    rw [if_pos (show ("立春" ≠ "" ∧ "立春" ∈ jieQiOddList) from by decide)]
    rw [hm12]
    rw [if_pos (show (jieQiMonthIdx "立春" = 0 ∧ (12:Int) = 12) from by decide)]
  have hG : ganIndexOfVal (gzMonthParts st ct).1 = (lnYear (deltaOf ct) - 3) % 10 := by
    rw [hparts]
    rw [ganIndexOfVal_pillar (by omega)]
    exact Int.tmod_eq_emod (by omega) (by norm_num)
  have hM : gzMonthM st ct =
      (if (((lnYear (deltaOf ct) - 3) % 10 + 1) * 2 + 1) % 10 = 0 then 10
       else (((lnYear (deltaOf ct) - 3) % 10 + 1) * 2 + 1) % 10) := by
    have he : 0 ≤ (lnYear (deltaOf ct) - 3) % 10 := Int.emod_nonneg _ (by norm_num)
    rw [gzMonthM, hG, hparts]
    dsimp only
    simp only [add_zero]
    rw [Int.tmod_eq_emod (by omega) (by norm_num)]
  rw [gzMonth, hM, hparts, monthZhiOf_zero, monthPillarFromYear]

/-- C1 counterexample: an out-of-range instant does not fail — the month
lookup for a pre-1901 lunar year silently returns the default day count 30,
and `lnDate` returns an ordinary numeric triple (here with a negative day)
instead of raising any `UnsupportedDateRange` error. -/
theorem C1_cex :
    lunarMonthDays 1900 1 = (0, 30) ∧
    dateDiff 1900 6 1 = -214 ∧
    lnDate (dateDiff 1900 6 1) = (1900, 11, -203) := by
  refine ⟨by decide, by decide, by decide⟩

lemma testBit_zero (k : Int) : testBit 0 k = false := by
  rw [testBit]
  simp [Nat.zero_div]

/-- C1 amended: the table lookups never fail; for lunar years before 1901
`lunarMonthDays` silently returns the default day count 30 (no leap days),
and for lunar years beyond 2050 the out-of-table bit reads coerce to 0 and
yield day count 29 (no leap days). -/
theorem C1_theorem : ∀ year month : Int,
    (year < 1901 → lunarMonthDays year month = (0, 30)) ∧
    (2050 < year → 1 ≤ month → month ≤ 12 → lunarMonthDays year month = (0, 29)) := by
  intro year month
  constructor
  · intro h
    rw [lunarMonthDays, if_pos (by rw [START_YEAR]; omega)]
  · intro h h1 h2
    have hidx : (75:Int) ≤ (year - START_YEAR).fdiv 2 := by
      rw [Int.fdiv_eq_ediv _ (by norm_num), START_YEAR]
      omega
    have hleap : getLeapMonth year = 0 := by
      simp only [getLeapMonth]
      rw [if_pos (show (0:Int) ≤ (year - START_YEAR).fdiv 2 by omega)]
      rw [List.getD_eq_default _ _
        (show gLunarMonth.length ≤ ((year - START_YEAR).fdiv 2).toNat by
          rw [show gLunarMonth.length = 75 from rfl]
          omega)]
      split_ifs <;> decide
    have hnot : ¬ year < START_YEAR := by rw [START_YEAR]; omega
    have hlen : gLunarMonthDay.length ≤ (year - START_YEAR).toNat := by
      rw [show gLunarMonthDay.length = 150 from rfl, START_YEAR]
      omega
    simp only [lunarMonthDays, if_neg hnot, hleap, List.getD_eq_default _ _ hlen, testBit_zero]
    rw [if_neg (show ¬(month = 0) by omega)]
    norm_num

/-- C1 witness: the amended theorem at concrete years on both sides of the
table. -/
theorem C1_witness : lunarMonthDays 1900 5 = (0, 30) ∧ lunarMonthDays 2051 5 = (0, 29) :=
  ⟨(C1_theorem 1900 5).1 (by norm_num),
   (C1_theorem 2051 5).2 (by norm_num) (by norm_num) (by norm_num)⟩

set_option maxRecDepth 8000 in
/-- C2 counterexample: Gregorian 1903-07-01 lies in the supported range but
falls inside the intercalary 5th month of lunar 1903, and `lnDate` returns
the sentinel `(0, 0, 0)` — month 0 ∉ [1,12] and day 0 < 1 — rather than a
valid lunar date. -/
theorem C2_cex :
    0 ≤ dateDiff 1903 7 1 ∧ dateDiff 1903 7 1 < supportedEnd ∧
    getLeapMonth 1903 = 5 ∧
    lnDate (dateDiff 1903 7 1) = (0, 0, 0) := by
  refine ⟨by decide, by decide, by decide, by decide⟩

/-- C2 amended: for every instant within the supported range, `lnDate`
returns either a triple with month ∈ [1,12] and day ≥ 1, or the sentinel
`(0, 0, 0)` (which it returns for instants inside an intercalary leap
month). -/
theorem C2_theorem : ∀ y m d : Int, 0 ≤ dateDiff y m d → dateDiff y m d < supportedEnd →
    lnDate (dateDiff y m d) = (0, 0, 0) ∨
      (1 ≤ (lnDate (dateDiff y m d)).2.1 ∧ (lnDate (dateDiff y m d)).2.1 ≤ 12 ∧
        1 ≤ (lnDate (dateDiff y m d)).2.2) := by
  intro y m d h0 h1
  rcases lnDate_cases h0 h1 with h | ⟨Y, M, D, he, _, _, hm1, hm2, hd⟩
  · left
    exact h
  · right
    rw [he]
    exact ⟨hm1, hm2, hd⟩

set_option maxRecDepth 8000 in
/-- C2 witness: the theorem at the first day of the supported range's first
full lunar year. -/
theorem C2_witness :
    lnDate (dateDiff 1901 5 1) = (0, 0, 0) ∨
      (1 ≤ (lnDate (dateDiff 1901 5 1)).2.1 ∧ (lnDate (dateDiff 1901 5 1)).2.1 ≤ 12 ∧
        1 ≤ (lnDate (dateDiff 1901 5 1)).2.2) :=
  C2_theorem 1901 5 1 (by decide) (by decide)

set_option maxRecDepth 8000 in
/-- C3 counterexample: 1903-07-01 is within the supported year range, yet
`gzYear`'s stem index is −4 (negative), the JS lookups `GAN[-4]`, `ZHI[-4]`
are undefined, and the produced year-pillar value is the non-string `NaN`
rather than a two-character pillar. -/
theorem C3_cex :
    0 ≤ dateDiff 1903 7 1 ∧ dateDiff 1903 7 1 < supportedEnd ∧
    (gzYearIdx ⟨1903, 7, 1, 12⟩).1 = -4 ∧ (gzYearIdx ⟨1903, 7, 1, 12⟩).2 = -4 ∧
    getYearGanzhi ⟨1903, 7, 1, 12⟩ = .nan := by
  refine ⟨by decide, by decide, by decide, by decide, by decide⟩

/-- C3 amended: for instants in the supported range whose lunar conversion
does not hit the leap-month sentinel, all four pillar computations produce a
stem index in [0,10) and a branch index in [0,12) (for the month pillar the
branch is one of the twelve fixed characters). -/
theorem C3_theorem : ∀ ct : CivilInstant,
    1901 ≤ ct.y → ct.y ≤ 2050 → 1 ≤ ct.m → ct.m ≤ 12 → 1 ≤ ct.d → ct.d ≤ 31 →
    0 ≤ ct.h → ct.h ≤ 23 → 0 ≤ deltaOf ct → deltaOf ct < supportedEnd →
    lnDate (deltaOf ct) ≠ (0, 0, 0) →
    (0 ≤ (gzYearIdx ct).1 ∧ (gzYearIdx ct).1 < 10 ∧
      0 ≤ (gzYearIdx ct).2 ∧ (gzYearIdx ct).2 < 12) ∧
    (1 ≤ gzMonthM (monthPathState ct) ct ∧ gzMonthM (monthPathState ct) ct ≤ 10 ∧
      monthZhiOf (gzMonthParts (monthPathState ct) ct).2 ∈ ZHI) ∧
    (0 ≤ (gzDayIdx ct.y ct.m ct.d).1 ∧ (gzDayIdx ct.y ct.m ct.d).1 < 10 ∧
      0 ≤ (gzDayIdx ct.y ct.m ct.d).2 ∧ (gzDayIdx ct.y ct.m ct.d).2 < 12) ∧
    (0 ≤ gzHourStemIdx ct ∧ gzHourStemIdx ct < 10 ∧
      0 ≤ gzHourZ ct.h ∧ gzHourZ ct.h < 12) := by
  intro ct hy1 hy2 hm1 hm2 hd1 hd2 hh1 hh2 hδ0 hδ1 hns
  refine ⟨?_, ?_, ?_, ?_⟩
  · rcases lnDate_cases hδ0 hδ1 with h | ⟨Y, M, D, he, hY1, hY2, _, _, _⟩
    · exact absurd h hns
    · rw [gzYearIdx, pillarIdx, lnYear, he]
      dsimp only
      exact ⟨Int.tmod_nonneg _ (by omega), Int.tmod_lt_of_pos _ (by norm_num),
        Int.tmod_nonneg _ (by omega), Int.tmod_lt_of_pos _ (by norm_num)⟩
  · exact ⟨(gzMonthM_range _ _).1, (gzMonthM_range _ _).2, monthZhiOf_mem _⟩
  · exact gzDayIdx_range (by omega) hm1 hm2 hd1
  · obtain ⟨a, b⟩ := gzHourStemIdx_range ct hh1
    obtain ⟨a2, b2⟩ := gzHourZ_range hh1
    exact ⟨a, b, a2, b2⟩

set_option maxRecDepth 8000 in
/-- C3 witness: the amended theorem at 1902-05-10 13:00. -/
theorem C3_witness :
    (0 ≤ (gzYearIdx ⟨1902, 5, 10, 13⟩).1 ∧ (gzYearIdx ⟨1902, 5, 10, 13⟩).1 < 10 ∧
      0 ≤ (gzYearIdx ⟨1902, 5, 10, 13⟩).2 ∧ (gzYearIdx ⟨1902, 5, 10, 13⟩).2 < 12) ∧
    (1 ≤ gzMonthM (monthPathState ⟨1902, 5, 10, 13⟩) ⟨1902, 5, 10, 13⟩ ∧
      gzMonthM (monthPathState ⟨1902, 5, 10, 13⟩) ⟨1902, 5, 10, 13⟩ ≤ 10 ∧
      monthZhiOf (gzMonthParts (monthPathState ⟨1902, 5, 10, 13⟩) ⟨1902, 5, 10, 13⟩).2 ∈ ZHI) ∧
    (0 ≤ (gzDayIdx 1902 5 10).1 ∧ (gzDayIdx 1902 5 10).1 < 10 ∧
      0 ≤ (gzDayIdx 1902 5 10).2 ∧ (gzDayIdx 1902 5 10).2 < 12) ∧
    (0 ≤ gzHourStemIdx ⟨1902, 5, 10, 13⟩ ∧ gzHourStemIdx ⟨1902, 5, 10, 13⟩ < 10 ∧
      0 ≤ gzHourZ 13 ∧ gzHourZ 13 < 12) :=
  C3_theorem ⟨1902, 5, 10, 13⟩ (by norm_num) (by norm_num) (by norm_num) (by norm_num)
    (by norm_num) (by norm_num) (by norm_num) (by norm_num) (by decide) (by decide) (by decide)

/-- C4 counterexample: at hour 1 the code's hour-branch index (via
`Math.round`) is 1 (丑), while the claimed formula `⌊hour/2 + 0.1⌋ mod 12`
gives 0 — the claim's floor does not match the implementation's round. -/
theorem C4_cex : gzHourZ 1 = 1 ∧ c4FloorBranch 1 = 0 ∧ gzHourZ 1 ≠ c4FloorBranch 1 := by
  have h1 : gzHourZ 1 = 1 := by
    rw [gzHourZ, jsRound, ratFloor_eq_floor]
    rw [show ⌊((1:Int):ℚ) / 2 + 0.1 + 1/2⌋ = 1 by
      rw [Int.floor_eq_iff]
      constructor <;> norm_num]
    decide
  have h2 : c4FloorBranch 1 = 0 := by
    rw [c4FloorBranch]
    rw [show ⌊((1:Int):ℚ) / 2 + 0.1⌋ = 0 by
      rw [Int.floor_eq_iff]
      constructor <;> norm_num]
    decide
  exact ⟨h1, h2, by rw [h1, h2]; norm_num⟩

/-- C4 amended: the hour-branch index is `round(hour/2 + 0.1) mod 12` (not
floor), and the hour stem is derived exactly as the claim states: from the
day pillar's 1-based stem number via `mod 5` with 0 remapped to 5, combined
with the 1-based hour-branch ordinal as `((r*2 − 1) + ordinal − 1) mod 10`
with 0 remapped to 10, then made 0-based for the lookup. -/
theorem C4_theorem : ∀ ct : CivilInstant,
    1 ≤ ct.y → 1 ≤ ct.m → ct.m ≤ 12 → 1 ≤ ct.d → 0 ≤ ct.h →
    gzHourZ ct.h = c4RoundBranch ct.h ∧
    gzHourStemIdx ct = c4HourStem ((gzDayIdx ct.y ct.m ct.d).1 + 1) (c4RoundBranch ct.h + 1) ∧
    gzHourVal ct = .str
      ⟨[GAN.getD (c4HourStem ((gzDayIdx ct.y ct.m ct.d).1 + 1) (c4RoundBranch ct.h + 1)).toNat '甲',
        ZHI.getD (c4RoundBranch ct.h).toNat '子']⟩ := by
  intro ct hy hm1 hm2 hd hh
  have hb := c4RoundBranch_eq_gzHourZ hh
  have hs := gzHourStemIdx_eq_c4 hy hm1 hm2 hd hh
  refine ⟨hb, hs, ?_⟩
  rw [gzHourVal, ← hs, ← hb]
  obtain ⟨s1, s2⟩ := gzHourStemIdx_range ct hh
  obtain ⟨z1, z2⟩ := gzHourZ_range hh
  rw [ganAt_some s1 s2, zhiAt_some z1 z2]
  rfl

/-- C4 witness: the amended theorem at 2024-06-01 15:00. -/
theorem C4_witness :
    gzHourZ 15 = c4RoundBranch 15 ∧
    gzHourStemIdx ⟨2024, 6, 1, 15⟩ =
      c4HourStem ((gzDayIdx 2024 6 1).1 + 1) (c4RoundBranch 15 + 1) ∧
    gzHourVal ⟨2024, 6, 1, 15⟩ = .str
      ⟨[GAN.getD (c4HourStem ((gzDayIdx 2024 6 1).1 + 1) (c4RoundBranch 15 + 1)).toNat '甲',
        ZHI.getD (c4RoundBranch 15).toNat '子']⟩ :=
  C4_theorem ⟨2024, 6, 1, 15⟩ (by norm_num) (by norm_num) (by norm_num) (by norm_num) (by norm_num)

/-- C5: for positive integer inputs, `generateHexagram` returns exactly the
three vocabulary words at the claimed 1-based indices (`n1 mod 6`,
`(n1+n2−1) mod 6`, `(n1+n2+n3−2) mod 6`, 0 remapped to 6) joined by single
spaces, and — being a pure function — `generateHexagram [1,1,1]` is the
constant `"大安 大安 大安"` on every call. -/
theorem C5_theorem :
    (∀ n1 n2 n3 : Int, 1 ≤ n1 → 1 ≤ n2 → 1 ≤ n3 →
      generateHexagram [n1, n2, n3] = c5Words n1 n2 n3) ∧
    generateHexagram [1, 1, 1] = "大安 大安 大安" :=
  ⟨fun _ _ _ h1 h2 h3 => generateHexagram_eq_c5 h1 h2 h3, by decide⟩

/-- C5 witness: the theorem at (2, 3, 4), whose words evaluate to
留连 赤口 大安. -/
theorem C5_witness :
    generateHexagram [2, 3, 4] = c5Words 2 3 4 ∧ c5Words 2 3 4 = "留连 赤口 大安" :=
  ⟨C5_theorem.1 2 3 4 (by norm_num) (by norm_num) (by norm_num), by decide⟩

/-- C6: the year pillar is computed from the lunar year minus 4 — stem index
`(lnYear − 4) % 10`, branch index `(lnYear − 4) % 12` (with JS truncating
`%`, which agrees with the mathematical mod on the supported non-sentinel
range, as the second conjunct states with the canonical `%`) — and the
reference instant 1984-02-02 yields the year pillar 甲子. -/
theorem C6_theorem :
    (∀ (st : GanZhiState) (ct : CivilInstant),
      (gzYear st ct).1 = pillarOfYearNum (lnYear (deltaOf ct) - 4)) ∧
    (∀ (st : GanZhiState) (ct : CivilInstant), 0 ≤ deltaOf ct → deltaOf ct < supportedEnd →
      lnDate (deltaOf ct) ≠ (0, 0, 0) →
      (gzYear st ct).1 = .str ⟨[GAN.getD (((lnYear (deltaOf ct) - 4) % 10).toNat) '甲',
        ZHI.getD (((lnYear (deltaOf ct) - 4) % 12).toNat) '子']⟩) ∧
    getYearGanzhi ⟨1984, 2, 2, 12⟩ = .str "甲子" := by
  refine ⟨gzYear_fst, ?_, by decide⟩
  intro st ct h0 h1 hns
  rcases lnDate_cases h0 h1 with h | ⟨Y, M, D, he, hY1, _, _, _, _⟩
  · exact absurd h hns
  · have hY : 1900 ≤ lnYear (deltaOf ct) := by
      rw [lnYear, he]
      exact hY1
    rw [gzYear_fst, pillarOfYearNum_str (by omega),
      Int.tmod_eq_emod (by omega) (by norm_num), Int.tmod_eq_emod (by omega) (by norm_num)]

set_option maxRecDepth 8000 in
/-- C6 witness: the canonical-mod form at 1901-06-01. -/
theorem C6_witness :
    (gzYear initState ⟨1901, 6, 1, 0⟩).1 =
      .str ⟨[GAN.getD (((lnYear (deltaOf ⟨1901, 6, 1, 0⟩) - 4) % 10).toNat) '甲',
        ZHI.getD (((lnYear (deltaOf ⟨1901, 6, 1, 0⟩) - 4) % 12).toNat) '子']⟩ :=
  C6_theorem.2.1 initState ⟨1901, 6, 1, 0⟩ (by decide) (by decide) (by decide)

/-- C7: for every civil date the day pillar's stem and branch indices are
exactly the claimed classical formulas (C = ⌊y/100⌋, reduced year mod 100
decremented for Jan/Feb, months 13/14, parity offset i, and the extra −1
calibration constant in both). -/
theorem C7_theorem : ∀ y m d : Int, 1 ≤ y → 1 ≤ m → m ≤ 12 → 1 ≤ d →
    gzDayIdx y m d = (specDayStem y m d, specDayBranch y m d) :=
  fun _ _ _ h1 h2 h3 h4 => gzDayIdx_eq_spec h1 h2 h3 h4

/-- C7 witness: the theorem at 2024-03-15. -/
theorem C7_witness : gzDayIdx 2024 3 15 = (specDayStem 2024 3 15, specDayBranch 2024 3 15) :=
  C7_theorem 2024 3 15 (by norm_num) (by norm_num) (by norm_num) (by norm_num)

/-- C8: `gzMonth` performs no assignment to the instance (the threaded state
comes back unchanged, for every state and instant); and when the instant is
exactly on 立春 while the lunar month value is still 12, the month pillar is
computed from the year pillar advanced by one increment (`lnYear − 3`
instead of the cached `lnYear − 4`), independently of the cached
`gzYearValue`, which is left untouched. -/
theorem C8_theorem :
    (∀ (st : GanZhiState) (ct : CivilInstant), (gzMonth st ct).2 = st) ∧
    (∀ (st : GanZhiState) (ct : CivilInstant),
      lnJieOfDate ct.y ct.m ct.d = "立春" → lnMonth (deltaOf ct) = 12 →
      (gzMonth st ct).1 = monthPillarFromYear (lnYear (deltaOf ct) - 3)) := by
  constructor
  · intro st ct
    rfl
  · intro st ct hj hm12
    rw [gzMonth_lichun st ct hj hm12]

/-- C8 witness: 1902-02-05 (立春 of 1902, lunar month still 12 of lunar
1901) with the freshly-initialised state. -/
theorem C8_witness :
    (gzMonth initState ⟨1902, 2, 5, 0⟩).1 =
      monthPillarFromYear (lnYear (deltaOf ⟨1902, 2, 5, 0⟩) - 3) :=
  C8_theorem.2 initState ⟨1902, 2, 5, 0⟩ lichun_1902 (by decide)

/-- C9 counterexample: a request whose `numbers` is `[1.5, 1, 1]` — a
3-element array containing a non-integer — passes the handler's validation
(`Array.isArray && length === 3 && question`) and reaches
`generateHexagram`; entry integer-ness is never checked. -/
theorem C9_cex :
    requestAccepted (some [3/2, 1, 1]) "测" = true ∧
    ¬ isIntegerList [3/2, 1, 1] ∧
    onRequestPostNumbers (some [3/2, 1, 1]) "测" = .ok [3/2, 1, 1] := by
  refine ⟨by decide, ?_, ?_⟩
  · intro h
    obtain ⟨k, hk⟩ := h (3/2) (by simp)
    have h3 : (3:ℚ) = ((2 * k : Int) : ℚ) := by
      push_cast
      linarith
    have h4 : (3:Int) = 2 * k := by exact_mod_cast h3
    omega
  · rw [onRequestPostNumbers, if_pos (by decide)]
    rfl

/-- C9 amended: the handler rejects a request exactly when `numbers` is not
an array of exactly 3 entries or `question` is falsy; the entries' values
(integer or not, finite or not) are never inspected, and an accepted
request's unmodified `numbers` list flows into `generateHexagram`. -/
theorem C9_theorem : ∀ (numbers : Option (List ℚ)) (question : String),
    (requestAccepted numbers question = true ↔
      ∃ l, numbers = some l ∧ l.length = 3 ∧ question ≠ "") ∧
    (∀ l, numbers = some l → requestAccepted numbers question = true →
      onRequestPostNumbers numbers question = .ok l) := by
  intro numbers question
  constructor
  · cases numbers with
    | none =>
      simp [requestAccepted]
    | some l =>
      simp [requestAccepted]
  · intro l hl hacc
    rw [onRequestPostNumbers, if_pos hacc, hl]
    rfl

/-- C9 witness: the acceptance characterisation applied to a concrete
3-integer request. -/
theorem C9_witness : requestAccepted (some [1, 2, 3]) "问" = true :=
  (C9_theorem (some [1, 2, 3]) "问").1.mpr ⟨[1, 2, 3], rfl, rfl, by decide⟩

set_option maxRecDepth 8000 in
/-- C10 counterexample: on the exported month path at 1903-07-01 (supported
range, inside the 1903 leap month), the value `gzMonth` reads from the
instance is the non-string `NaN` produced by `gzYear` — not a non-empty
two-character year-pillar string. -/
theorem C10_cex :
    0 ≤ deltaOf ⟨1903, 7, 1, 12⟩ ∧ deltaOf ⟨1903, 7, 1, 12⟩ < supportedEnd ∧
    (monthPathState ⟨1903, 7, 1, 12⟩).gzYearValue = .nan := by
  refine ⟨by decide, by decide, by decide⟩

/-- C10 amended: `gzYearValue` is the empty string on a fresh instance;
`getMonthGanzhi` runs `gzMonth` in exactly the state `gzYear` has just
written (so `gzMonth` reads `gzYear`'s value without recomputing it); and
for supported-range instants whose lunar conversion does not hit the
leap-month sentinel that value is a two-character stem+branch string. -/
theorem C10_theorem :
    initState.gzYearValue = .str "" ∧
    (∀ ct : CivilInstant, getMonthGanzhi ct = (gzMonth (monthPathState ct) ct).1 ∧
      (monthPathState ct).gzYearValue = (gzYear initState ct).1) ∧
    (∀ ct : CivilInstant, 0 ≤ deltaOf ct → deltaOf ct < supportedEnd →
      lnDate (deltaOf ct) ≠ (0, 0, 0) →
      ∃ g z, g ∈ GAN ∧ z ∈ ZHI ∧ (monthPathState ct).gzYearValue = .str ⟨[g, z]⟩) := by
  refine ⟨rfl, fun ct => ⟨rfl, rfl⟩, ?_⟩
  intro ct h0 h1 hns
  rcases lnDate_cases h0 h1 with h | ⟨Y, M, D, he, hY1, _, _, _, _⟩
  · exact absurd h hns
  · have hY : 1900 ≤ lnYear (deltaOf ct) := by
      rw [lnYear, he]
      exact hY1
    rw [monthPathState_val, gzYear_fst, pillarOfYearNum_str (by omega)]
    have hg0 : 0 ≤ (lnYear (deltaOf ct) - 4).tmod 10 := Int.tmod_nonneg _ (by omega)
    have hg1 : (lnYear (deltaOf ct) - 4).tmod 10 < 10 :=
      Int.tmod_lt_of_pos _ (by norm_num)
    have hz0 : 0 ≤ (lnYear (deltaOf ct) - 4).tmod 12 := Int.tmod_nonneg _ (by omega)
    have hz1 : (lnYear (deltaOf ct) - 4).tmod 12 < 12 :=
      Int.tmod_lt_of_pos _ (by norm_num)
    exact ⟨_, _, gan_getD_mem ⟨((lnYear (deltaOf ct) - 4).tmod 10).toNat, by omega⟩,
      zhi_getD_mem ⟨((lnYear (deltaOf ct) - 4).tmod 12).toNat, by omega⟩, rfl⟩

set_option maxRecDepth 8000 in
/-- C10 witness: the two-character property at 1902-05-10. -/
theorem C10_witness :
    ∃ g z, g ∈ GAN ∧ z ∈ ZHI ∧
      (monthPathState ⟨1902, 5, 10, 13⟩).gzYearValue = .str ⟨[g, z]⟩ :=
  C10_theorem.2.2 ⟨1902, 5, 10, 13⟩ (by decide) (by decide) (by decide)

end Liuren
